import Mathlib

/-!
Verification of the GPS-tracking script (`src/Main.py`).

The script has two parts:

* `generate_random_path` — a pure random walk generator.  The call
  `random.uniform(a, b)` is modelled faithfully after CPython's
  implementation `a + (b - a) * random()`, where `random()` draws a real
  from the half-open interval `[0, 1)`; the raw draws are passed in
  explicitly as a stream `rands : ℕ → ℝ × ℝ` (one pair per loop
  iteration: first component for the latitude step, second for the
  longitude step).  Python's `range(num_points - 1)` runs
  `max 0 (num_points - 1)` iterations, which is `(num_points - 1).toNat`
  on `ℤ`.

* `create_tracking_map` / the `__main__` block — an orchestrator calling
  external collaborators (geocoder, folium map, file save, browser).
  Each external call is modelled as an `Except String` outcome supplied
  by an environment `Env`; the observable effects (console messages,
  generator invocations, the saved artifact, the browser call) are
  collected in a `RunResult`.
-/

set_option autoImplicit false

namespace GPSTrack

/-- Python `random.uniform a b`: CPython computes `a + (b - a) * random()`,
where the raw draw `r = random()` lies in `[0, 1)`. -/
def uniform (a b r : ℝ) : ℝ := a + (b - a) * r

/-- One iteration of the loop in `generate_random_path` (`src/Main.py`
lines 31–39): sample `step_lat = uniform (-max_step) max_step` and
`step_lon = uniform (-max_step) max_step` from the `i`-th raw draws and add
them to the current latitude and longitude respectively. -/
def nextPoint (rands : ℕ → ℝ × ℝ) (max_step : ℝ) (i : ℕ) (cur : ℝ × ℝ) : ℝ × ℝ :=
  (cur.1 + uniform (-max_step) max_step (rands i).1,
   cur.2 + uniform (-max_step) max_step (rands i).2)

/-- The whole `for _ in range(num_points - 1)` loop of
`generate_random_path`: starting from the current point `cur` with the
next unused raw-draw index `i`, run `n` more iterations and return the
list of points appended by the loop (the Python `path.append` calls). -/
def walkSteps (rands : ℕ → ℝ × ℝ) (max_step : ℝ) : ℝ × ℝ → ℕ → ℕ → List (ℝ × ℝ)
  | _, _, 0 => []
  | cur, i, n + 1 =>
      nextPoint rands max_step i cur ::
        walkSteps rands max_step (nextPoint rands max_step i cur) (i + 1) n

/-- `generate_random_path` from `src/Main.py` lines 15–41:
`path = [(start_lat, start_lon)]`, then `num_points - 1` loop iterations
(`range` of a non-positive integer is empty, hence `Int.toNat`). -/
def generate_random_path (rands : ℕ → ℝ × ℝ) (start_lat start_lon : ℝ)
    (num_points : ℤ) (max_step : ℝ) : List (ℝ × ℝ) :=
  (start_lat, start_lon) ::
    walkSteps rands max_step (start_lat, start_lon) 0 (num_points - 1).toNat

/-- The point reached after `j` loop iterations when starting from `cur`
with next raw-draw index `i` (specification device for indexing into the
generated path). -/
def pointFrom (rands : ℕ → ℝ × ℝ) (max_step : ℝ) (cur : ℝ × ℝ) (i : ℕ) : ℕ → ℝ × ℝ
  | 0 => cur
  | j + 1 => nextPoint rands max_step (i + j) (pointFrom rands max_step cur i j)

theorem walkSteps_length (rands : ℕ → ℝ × ℝ) (max_step : ℝ) :
    ∀ (n : ℕ) (cur : ℝ × ℝ) (i : ℕ),
      (walkSteps rands max_step cur i n).length = n := by
  intro n
  induction n with
  | zero => intro cur i; rfl
  | succ n ih =>
      intro cur i
      simp [walkSteps, ih]

theorem pointFrom_next (rands : ℕ → ℝ × ℝ) (max_step : ℝ) (cur : ℝ × ℝ) (i : ℕ) :
    ∀ j : ℕ,
      pointFrom rands max_step (nextPoint rands max_step i cur) (i + 1) j =
        pointFrom rands max_step cur i (j + 1) := by
  intro j
  induction j with
  | zero => simp [pointFrom]
  | succ j ih =>
      have harith : i + 1 + j = i + (j + 1) := by omega
      simp [pointFrom, ih, harith]

theorem walkSteps_get? (rands : ℕ → ℝ × ℝ) (max_step : ℝ) :
    ∀ (n : ℕ) (cur : ℝ × ℝ) (i j : ℕ), j < n →
      (walkSteps rands max_step cur i n).get? j =
        some (pointFrom rands max_step cur i (j + 1)) := by
  intro n
  induction n with
  | zero => intro cur i j hj; omega
  | succ n ih =>
      intro cur i j hj
      cases j with
      | zero => simp [walkSteps, pointFrom]
      | succ j =>
          have hj' : j < n := by omega
          simp only [walkSteps, List.get?_cons_succ]
          rw [ih (nextPoint rands max_step i cur) (i + 1) j hj',
            pointFrom_next]

theorem generate_random_path_get? (rands : ℕ → ℝ × ℝ)
    (start_lat start_lon : ℝ) (num_points : ℤ) (max_step : ℝ) (j : ℕ)
    (hj : j < (generate_random_path rands start_lat start_lon num_points max_step).length) :
    (generate_random_path rands start_lat start_lon num_points max_step).get? j =
      some (pointFrom rands max_step (start_lat, start_lon) 0 j) := by
  have hlen : (generate_random_path rands start_lat start_lon num_points max_step).length
      = (num_points - 1).toNat + 1 := by
    simp [generate_random_path, walkSteps_length]
  cases j with
  | zero => simp [generate_random_path, pointFrom]
  | succ j =>
      have hj' : j < (num_points - 1).toNat := by omega
      simp only [generate_random_path, List.get?_cons_succ]
      exact walkSteps_get? rands max_step _ _ 0 j hj'

theorem uniform_mem_Icc (max_step r : ℝ) (hM : 0 ≤ max_step)
    (hr : r ∈ Set.Ico (0 : ℝ) 1) :
    uniform (-max_step) max_step r ∈ Set.Icc (-max_step) max_step := by
  obtain ⟨hr0, hr1⟩ := hr
  constructor
  · have : 0 ≤ (max_step - -max_step) * r := by nlinarith
    simp only [uniform]; nlinarith
  · simp only [uniform]; nlinarith

theorem walkSteps_zero_max_step (rands : ℕ → ℝ × ℝ) :
    ∀ (n : ℕ) (cur : ℝ × ℝ) (i : ℕ),
      walkSteps rands 0 cur i n = List.replicate n cur := by
  intro n
  induction n with
  | zero => intro cur i; rfl
  | succ n ih =>
      intro cur i
      have hnext : nextPoint rands 0 i cur = cur := by
        simp [nextPoint, uniform]
      simp [walkSteps, hnext, ih, List.replicate_succ]

/-- A fixed stream of raw random draws used to instantiate the universally
quantified theorems below on concrete inputs. -/
def wrands : ℕ → ℝ × ℝ := fun _ => (0, 0)

/-- Claim C1: for every start coordinate and every `num_points ≥ 1` (any
`max_step`), `generate_random_path` returns a path of length exactly
`num_points` whose first element is exactly the start coordinate, and for
`num_points = 1` the result is the one-element list holding only the start
coordinate. -/
theorem C1_length_and_first (rands : ℕ → ℝ × ℝ) (start_lat start_lon : ℝ)
    (num_points : ℤ) (max_step : ℝ) (hN : 1 ≤ num_points) :
    ((generate_random_path rands start_lat start_lon num_points max_step).length : ℤ)
        = num_points ∧
    (generate_random_path rands start_lat start_lon num_points max_step).head?
        = some (start_lat, start_lon) ∧
    (num_points = 1 →
      generate_random_path rands start_lat start_lon num_points max_step
        = [(start_lat, start_lon)]) := by
  refine ⟨?_, ?_, ?_⟩
  · have hlen : (generate_random_path rands start_lat start_lon num_points max_step).length
        = (num_points - 1).toNat + 1 := by
      simp [generate_random_path, walkSteps_length]
    rw [hlen]
    omega
  · simp [generate_random_path]
  · intro h1
    subst h1
    have h0 : ((1 : ℤ) - 1).toNat = 0 := by omega
    simp [generate_random_path, h0, walkSteps]

theorem C1_length_and_first_witness :
    (1 : ℤ) ≤ 3 ∧
    (((generate_random_path wrands 4 5 3 1).length : ℤ) = 3 ∧
      (generate_random_path wrands 4 5 3 1).head? = some (4, 5) ∧
      ((3 : ℤ) = 1 → generate_random_path wrands 4 5 3 1 = [(4, 5)])) :=
  ⟨by norm_num, C1_length_and_first wrands 4 5 3 1 (by norm_num)⟩

/-- Claim C2 counterexample: the spec says each consecutive latitude and
longitude difference lies strictly inside the open interval
`(-max_step, max_step)`.  But `random.uniform (-M) M` is
`-M + 2 * M * random()` with `random() ∈ [0, 1)`, so the raw draw `0`
(which `random()` can return) yields a step of exactly `-M`: with
`max_step = 1`, start `(0, 0)` and `num_points = 2`, the second point is
`(-1, -1)` and the latitude difference `-1` is not in the open interval
`(-1, 1)`. -/
theorem C2_open_interval_counterexample :
    ((0 : ℝ) ∈ Set.Ico (0 : ℝ) 1) ∧
    generate_random_path (fun _ => ((0 : ℝ), (0 : ℝ))) 0 0 2 1
      = [((0 : ℝ), (0 : ℝ)), ((-1 : ℝ), (-1 : ℝ))] ∧
    ((-1 : ℝ) - 0) ∉ Set.Ioo (-(1 : ℝ)) 1 := by
  refine ⟨by norm_num, ?_, by norm_num⟩
  have h1 : ((2 : ℤ) - 1).toNat = 1 := by omega
  norm_num [generate_random_path, h1, walkSteps, nextPoint, uniform]

/-- Claim C2 (amended): for every admissible stream of raw random draws
(each component in `[0, 1)`, the range of Python's `random()`), every
`max_step > 0` and `num_points ≥ 2`, each consecutive pair of points of
the generated path differs, on the latitude axis and on the longitude
axis, by a value in the CLOSED interval `[-max_step, max_step]` (the lower
endpoint is attainable), and each successor point is exactly the previous
point plus a per-axis independently sampled `uniform (-max_step) max_step`
step. -/
theorem C2_steps_within_closed_interval (rands : ℕ → ℝ × ℝ)
    (hr : ∀ i, (rands i).1 ∈ Set.Ico (0 : ℝ) 1 ∧ (rands i).2 ∈ Set.Ico (0 : ℝ) 1)
    (start_lat start_lon : ℝ) (num_points : ℤ) (max_step : ℝ)
    (hM : 0 < max_step) (_hN : 2 ≤ num_points) (j : ℕ)
    (hj : j + 1 < (generate_random_path rands start_lat start_lon num_points max_step).length) :
    ∃ p q,
      (generate_random_path rands start_lat start_lon num_points max_step).get? j
          = some p ∧
      (generate_random_path rands start_lat start_lon num_points max_step).get? (j + 1)
          = some q ∧
      q = (p.1 + uniform (-max_step) max_step (rands j).1,
           p.2 + uniform (-max_step) max_step (rands j).2) ∧
      q.1 - p.1 ∈ Set.Icc (-max_step) max_step ∧
      q.2 - p.2 ∈ Set.Icc (-max_step) max_step := by
  have hjlt : j < (generate_random_path rands start_lat start_lon num_points max_step).length := by
    omega
  refine ⟨pointFrom rands max_step (start_lat, start_lon) 0 j,
    pointFrom rands max_step (start_lat, start_lon) 0 (j + 1),
    generate_random_path_get? rands start_lat start_lon num_points max_step j hjlt,
    generate_random_path_get? rands start_lat start_lon num_points max_step (j + 1) hj,
    ?_, ?_, ?_⟩
  · simp [pointFrom, nextPoint]
  · have : pointFrom rands max_step (start_lat, start_lon) 0 (j + 1)
        = nextPoint rands max_step j (pointFrom rands max_step (start_lat, start_lon) 0 j) := by
      simp [pointFrom]
    rw [this]
    simp only [nextPoint, add_sub_cancel_left]
    exact uniform_mem_Icc max_step (rands j).1 hM.le (hr j).1
  · have : pointFrom rands max_step (start_lat, start_lon) 0 (j + 1)
        = nextPoint rands max_step j (pointFrom rands max_step (start_lat, start_lon) 0 j) := by
      simp [pointFrom]
    rw [this]
    simp only [nextPoint, add_sub_cancel_left]
    exact uniform_mem_Icc max_step (rands j).2 hM.le (hr j).2

theorem C2_steps_within_closed_interval_witness :
    ∃ p q,
      (generate_random_path wrands 0 0 2 1).get? 0 = some p ∧
      (generate_random_path wrands 0 0 2 1).get? 1 = some q ∧
      q = (p.1 + uniform (-1) 1 (wrands 0).1, p.2 + uniform (-1) 1 (wrands 0).2) ∧
      q.1 - p.1 ∈ Set.Icc (-(1 : ℝ)) 1 ∧
      q.2 - p.2 ∈ Set.Icc (-(1 : ℝ)) 1 :=
  C2_steps_within_closed_interval wrands
    (by intro i; constructor <;> constructor <;> norm_num [wrands])
    0 0 2 1 (by norm_num) (by norm_num) 0
    (by simp [generate_random_path, walkSteps_length])

/-- Claim C3 counterexample: the spec says a negative point count is
rejected with an invalid-argument error, but on `num_points = -5` the code
performs no validation: `range(num_points - 1)` is empty and the function
returns the one-element path holding the start coordinate. -/
theorem C3_no_rejection_counterexample :
    generate_random_path (fun _ => ((0 : ℝ), (0 : ℝ))) 0 0 (-5) 1
      = [((0 : ℝ), (0 : ℝ))] := by
  have h0 : ((-5 : ℤ) - 1).toNat = 0 := by omega
  simp [generate_random_path, h0, walkSteps]

/-- Claim C3 (amended): for every negative `num_points`,
`generate_random_path` does not reject the call: it raises nothing and
returns the one-element path containing only the start coordinate. -/
theorem C3_negative_points_returns_start (rands : ℕ → ℝ × ℝ)
    (start_lat start_lon : ℝ) (num_points : ℤ) (max_step : ℝ)
    (hN : num_points < 0) :
    generate_random_path rands start_lat start_lon num_points max_step
      = [(start_lat, start_lon)] := by
  have h0 : (num_points - 1).toNat = 0 := by omega
  simp [generate_random_path, h0, walkSteps]

theorem C3_negative_points_returns_start_witness :
    (-2 : ℤ) < 0 ∧ generate_random_path wrands 7 8 (-2) 1 = [(7, 8)] :=
  ⟨by norm_num, C3_negative_points_returns_start wrands 7 8 (-2) 1 (by norm_num)⟩

/-- Claim C8: for every start coordinate and every `num_points ≥ 1`,
running `generate_random_path` with `max_step = 0` yields the degenerate
path: every element equals the start coordinate (the path is
`num_points` copies of the start). -/
theorem C8_zero_max_step_degenerate (rands : ℕ → ℝ × ℝ)
    (start_lat start_lon : ℝ) (num_points : ℤ) (hN : 1 ≤ num_points) :
    generate_random_path rands start_lat start_lon num_points 0
      = List.replicate num_points.toNat (start_lat, start_lon) ∧
    ∀ p ∈ generate_random_path rands start_lat start_lon num_points 0,
      p = (start_lat, start_lon) := by
  have heq : generate_random_path rands start_lat start_lon num_points 0
      = List.replicate num_points.toNat (start_lat, start_lon) := by
    have hnat : num_points.toNat = (num_points - 1).toNat + 1 := by omega
    rw [hnat]
    simp [generate_random_path, walkSteps_zero_max_step, List.replicate_succ]
  refine ⟨heq, ?_⟩
  intro p hp
  rw [heq] at hp
  exact List.eq_of_mem_replicate hp

theorem C8_zero_max_step_degenerate_witness :
    (1 : ℤ) ≤ 3 ∧
    (generate_random_path wrands 4 5 3 0 = List.replicate (3 : ℤ).toNat (4, 5) ∧
      ∀ p ∈ generate_random_path wrands 4 5 3 0, p = ((4 : ℝ), (5 : ℝ))) :=
  ⟨by norm_num, C8_zero_max_step_degenerate wrands 4 5 3 (by norm_num)⟩

/-- Claim C10: `generate_random_path` is total over every integer
`num_points` (the Lean embedding is a total function and the Python body
has no raising operation: `range` of a non-positive argument is simply
empty), and for every `num_points ≤ 1` — zero and negatives included — it
returns exactly the one-element list holding the start coordinate. -/
theorem C10_nonpositive_points_returns_start (rands : ℕ → ℝ × ℝ)
    (start_lat start_lon : ℝ) (num_points : ℤ) (max_step : ℝ)
    (hN : num_points ≤ 1) :
    generate_random_path rands start_lat start_lon num_points max_step
      = [(start_lat, start_lon)] := by
  have h0 : (num_points - 1).toNat = 0 := by omega
  simp [generate_random_path, h0, walkSteps]

theorem C10_nonpositive_points_returns_start_witness :
    (0 : ℤ) ≤ 1 ∧ generate_random_path wrands 9 10 0 1 = [(9, 10)] :=
  ⟨by norm_num, C10_nonpositive_points_returns_start wrands 9 10 0 1 (by norm_num)⟩

/-! ### The orchestrator (`create_tracking_map` and the `__main__` block) -/

/-- A console message printed by the script.  Constructors mirror the
`print` calls of `src/Main.py`; `errorOccurred` carries the triggering
exception's message, as in `print(f"An error occurred: \x7be\x7d")`. -/
inductive Msg where
  | finding (addr : String)
  | coordsFound (lat lon : ℝ)
  | generating
  | errorNotFound (addr : String)
  | mapCreated
  | savedAs (file : String)
  | errorOccurred (emsg : String)
  | checkConnection
  | noLocation

/-- A `folium.Marker`: location, popup text, and the `folium.Icon` style
(`color=` and `icon=` keyword arguments). -/
structure Marker where
  location : ℝ × ℝ
  popup : String
  iconColor : String
  iconName : String

/-- A `folium.PolyLine` added to the map. -/
structure Polyline where
  locations : List (ℝ × ℝ)
  color : String
  weight : ℕ
  opacity : ℝ

/-- The `folium.Map` object `m`: centre, zoom, and the overlays added via
`.add_to(m)`. -/
structure FMap where
  location : ℝ × ℝ
  zoom_start : ℕ
  polylines : List Polyline
  markers : List Marker

/-- Outcomes of the external collaborators for one run.  Each fallible
external call is an `Except String` value: `Except.error e` means the call
raises an exception whose message is `e`.  The geocoder additionally
distinguishes "no match" (`Except.ok none`) from a found location
(`Except.ok (some coords)`), mirroring `if not location:`. -/
structure Env where
  geocode : Except String (Option (ℝ × ℝ))
  rands : ℕ → ℝ × ℝ
  mapNew : Except String Unit
  polylineAdd : Except String Unit
  markerStartAdd : Except String Unit
  markerEndAdd : Except String Unit
  saveMap : Except String Unit
  openBrowser : Except String Unit

/-- The observable effects of one run: console messages in order, whether
the geocoder was called, every invocation of the path generator with its
arguments (start coordinate, `num_points`, `max_step`), the saved file (name
and map content) if any, and the browser-open target if any. -/
structure RunResult where
  printed : List Msg
  geocodeCalled : Bool
  generatorCalls : List ((ℝ × ℝ) × ℤ × ℝ)
  savedFile : Option (String × FMap)
  browserOpened : Option String

/-- `create_tracking_map` from `src/Main.py` lines 43–105, evaluated
against an environment `env` of external-call outcomes.  The nested
matches follow the source order: print, geocode (with the `if not
location:` early return), `folium.Map`, print, `generate_random_path`
with `num_points=100, max_step=0.0008`, `folium.PolyLine`, the two
`folium.Marker`s, `m.save`, the success prints, `webbrowser.open`.  Any
raising call lands in the single `except` clause, which prints
`errorOccurred` with the exception's message followed by
`checkConnection`. -/
def create_tracking_map (env : Env) (start_address : String) : RunResult :=
  let p0 : List Msg := [Msg.finding start_address]
  match env.geocode with
  | Except.error e =>
      { printed := p0 ++ [Msg.errorOccurred e, Msg.checkConnection],
        geocodeCalled := true, generatorCalls := [],
        savedFile := none, browserOpened := none }
  | Except.ok none =>
      { printed := p0 ++ [Msg.errorNotFound start_address],
        geocodeCalled := true, generatorCalls := [],
        savedFile := none, browserOpened := none }
  | Except.ok (some (start_lat, start_lon)) =>
      let p1 := p0 ++ [Msg.coordsFound start_lat start_lon]
      match env.mapNew with
      | Except.error e =>
          { printed := p1 ++ [Msg.errorOccurred e, Msg.checkConnection],
            geocodeCalled := true, generatorCalls := [],
            savedFile := none, browserOpened := none }
      | Except.ok _ =>
          let m0 : FMap :=
            { location := (start_lat, start_lon), zoom_start := 15,
              polylines := [], markers := [] }
          let p2 := p1 ++ [Msg.generating]
          let gps_path := generate_random_path env.rands start_lat start_lon 100 0.0008
          let gcalls : List ((ℝ × ℝ) × ℤ × ℝ) :=
            [((start_lat, start_lon), (100 : ℤ), (0.0008 : ℝ))]
          match env.polylineAdd with
          | Except.error e =>
              { printed := p2 ++ [Msg.errorOccurred e, Msg.checkConnection],
                geocodeCalled := true, generatorCalls := gcalls,
                savedFile := none, browserOpened := none }
          | Except.ok _ =>
              let m1 : FMap :=
                { m0 with polylines := m0.polylines ++
                    [{ locations := gps_path, color := "blue",
                       weight := 5, opacity := 0.8 }] }
              match env.markerStartAdd with
              | Except.error e =>
                  { printed := p2 ++ [Msg.errorOccurred e, Msg.checkConnection],
                    geocodeCalled := true, generatorCalls := gcalls,
                    savedFile := none, browserOpened := none }
              | Except.ok _ =>
                  let m2 : FMap :=
                    { m1 with markers := m1.markers ++
                        [{ location := gps_path.head!, popup := "Start Point",
                           iconColor := "green", iconName := "play" }] }
                  match env.markerEndAdd with
                  | Except.error e =>
                      { printed := p2 ++ [Msg.errorOccurred e, Msg.checkConnection],
                        geocodeCalled := true, generatorCalls := gcalls,
                        savedFile := none, browserOpened := none }
                  | Except.ok _ =>
                      let m3 : FMap :=
                        { m2 with markers := m2.markers ++
                            [{ location := gps_path.getLast!, popup := "End Point",
                               iconColor := "red", iconName := "stop" }] }
                      match env.saveMap with
                      | Except.error e =>
                          { printed := p2 ++ [Msg.errorOccurred e, Msg.checkConnection],
                            geocodeCalled := true, generatorCalls := gcalls,
                            savedFile := none, browserOpened := none }
                      | Except.ok _ =>
                          let p3 := p2 ++ [Msg.mapCreated, Msg.savedAs "gps_tracking_map.html"]
                          match env.openBrowser with
                          | Except.error e =>
                              { printed := p3 ++ [Msg.errorOccurred e, Msg.checkConnection],
                                geocodeCalled := true, generatorCalls := gcalls,
                                savedFile := some ("gps_tracking_map.html", m3),
                                browserOpened := none }
                          | Except.ok _ =>
                              { printed := p3,
                                geocodeCalled := true, generatorCalls := gcalls,
                                savedFile := some ("gps_tracking_map.html", m3),
                                browserOpened := some "gps_tracking_map.html" }

/-- Python `str.strip()` with no argument: remove leading and trailing
whitespace characters. -/
def strip (s : String) : String :=
  String.mk
    (((s.data.dropWhile Char.isWhitespace).reverse.dropWhile Char.isWhitespace).reverse)

/-- The `__main__` block (`src/Main.py` lines 108–116): read a location
string and run `create_tracking_map` only when `starting_location.strip()`
is non-empty (Python string truthiness), else print the informational
message and exit. -/
def main_program (env : Env) (starting_location : String) : RunResult :=
  if strip starting_location ≠ "" then
    create_tracking_map env starting_location
  else
    { printed := [Msg.noLocation], geocodeCalled := false,
      generatorCalls := [], savedFile := none, browserOpened := none }

/-- The message of the first exception raised by an external call during a
run, in the order the calls execute, `none` when no reached call raises
(the early `return` after a not-found geocode means later calls never
execute). -/
def firstException (env : Env) : Option String :=
  match env.geocode with
  | Except.error e => some e
  | Except.ok none => none
  | Except.ok (some _) =>
      match env.mapNew with
      | Except.error e => some e
      | Except.ok _ =>
          match env.polylineAdd with
          | Except.error e => some e
          | Except.ok _ =>
              match env.markerStartAdd with
              | Except.error e => some e
              | Except.ok _ =>
                  match env.markerEndAdd with
                  | Except.error e => some e
                  | Except.ok _ =>
                      match env.saveMap with
                      | Except.error e => some e
                      | Except.ok _ =>
                          match env.openBrowser with
                          | Except.error e => some e
                          | Except.ok _ => none

/-- Is a message an `errorOccurred` report from the catch-all handler? -/
def isErrorMsg : Msg → Bool
  | Msg.errorOccurred _ => true
  | _ => false

/-- How many `errorOccurred` reports a message list holds. -/
def countErrors : List Msg → ℕ
  | [] => 0
  | m :: ms => (if isErrorMsg m then 1 else 0) + countErrors ms

/-- The map object as it stands when `m.save` is reached: one polyline
over the generated path and the two start/end markers. -/
def fullMap (rands : ℕ → ℝ × ℝ) (lat lon : ℝ) : FMap :=
  { location := (lat, lon), zoom_start := 15,
    polylines :=
      [{ locations := generate_random_path rands lat lon 100 0.0008,
         color := "blue", weight := 5, opacity := 0.8 }],
    markers :=
      [{ location := (generate_random_path rands lat lon 100 0.0008).head!,
         popup := "Start Point", iconColor := "green", iconName := "play" },
       { location := (generate_random_path rands lat lon 100 0.0008).getLast!,
         popup := "End Point", iconColor := "red", iconName := "stop" }] }

theorem create_tracking_map_savedFile_of_ok (env : Env) (addr : String)
    (lat lon : ℝ) (hg : env.geocode = Except.ok (some (lat, lon)))
    (hm : env.mapNew = Except.ok ()) (hpl : env.polylineAdd = Except.ok ())
    (hms : env.markerStartAdd = Except.ok ()) (hme : env.markerEndAdd = Except.ok ())
    (hsv : env.saveMap = Except.ok ()) :
    (create_tracking_map env addr).savedFile
      = some ("gps_tracking_map.html", fullMap env.rands lat lon) := by
  rcases hob : env.openBrowser with e | u <;>
    simp [create_tracking_map, fullMap, hg, hm, hpl, hms, hme, hsv, hob]

/-- An environment in which every external call succeeds and the geocoder
resolves the location to the Eiffel Tower's coordinates. -/
def envFound : Env :=
  { geocode := Except.ok (some (48.8584, 2.2945)), rands := wrands,
    mapNew := Except.ok (), polylineAdd := Except.ok (),
    markerStartAdd := Except.ok (), markerEndAdd := Except.ok (),
    saveMap := Except.ok (), openBrowser := Except.ok () }

/-- An environment in which the geocoder raises an exception. -/
def envGeoRaise : Env :=
  { geocode := Except.error "boom", rands := wrands,
    mapNew := Except.ok (), polylineAdd := Except.ok (),
    markerStartAdd := Except.ok (), markerEndAdd := Except.ok (),
    saveMap := Except.ok (), openBrowser := Except.ok () }

/-- An environment in which the geocoder returns no match. -/
def envGeoNone : Env :=
  { geocode := Except.ok none, rands := wrands,
    mapNew := Except.ok (), polylineAdd := Except.ok (),
    markerStartAdd := Except.ok (), markerEndAdd := Except.ok (),
    saveMap := Except.ok (), openBrowser := Except.ok () }

/-- Claim C4: whatever the external calls do, the run produces a result
(the handler never lets an exception propagate — `create_tracking_map` is
total over `Env`); when some reached step raises, the catch-all handler
fires exactly once, printing exactly one `errorOccurred` report that
carries the triggering exception's message (followed by the advice line),
and when nothing raises no error report is printed. -/
theorem C4_single_catch_all_handler (env : Env) (addr : String) :
    (∀ e, firstException env = some e →
        countErrors (create_tracking_map env addr).printed = 1 ∧
        Msg.errorOccurred e ∈ (create_tracking_map env addr).printed ∧
        Msg.checkConnection ∈ (create_tracking_map env addr).printed) ∧
    (firstException env = none →
        countErrors (create_tracking_map env addr).printed = 0) := by
  obtain ⟨g, rd, mn, pl, ms, me, sv, ob⟩ := env
  cases g with
  | error e =>
      simp [create_tracking_map, firstException, countErrors, isErrorMsg]
  | ok o =>
      cases o with
      | none =>
          simp [create_tracking_map, firstException, countErrors, isErrorMsg]
      | some c =>
          obtain ⟨lat, lon⟩ := c
          cases mn <;> cases pl <;> cases ms <;> cases me <;> cases sv <;> cases ob <;>
            simp [create_tracking_map, firstException, countErrors, isErrorMsg]

theorem C4_single_catch_all_handler_witness :
    firstException envGeoRaise = some "boom" ∧
    (countErrors (create_tracking_map envGeoRaise "Eiffel Tower").printed = 1 ∧
      Msg.errorOccurred "boom" ∈ (create_tracking_map envGeoRaise "Eiffel Tower").printed ∧
      Msg.checkConnection ∈ (create_tracking_map envGeoRaise "Eiffel Tower").printed) :=
  ⟨rfl, (C4_single_catch_all_handler envGeoRaise "Eiffel Tower").1 "boom" rfl⟩

/-- Claim C5: an empty geocoder result and a geocoder exception are
handled equivalently — in both cases a user-facing diagnostic message is
printed, no output file is written, and the run returns a result instead
of crashing. -/
theorem C5_unresolved_location_equivalent (env : Env) (addr : String) :
    (env.geocode = Except.ok none →
        (create_tracking_map env addr).savedFile = none ∧
        Msg.errorNotFound addr ∈ (create_tracking_map env addr).printed) ∧
    (∀ e, env.geocode = Except.error e →
        (create_tracking_map env addr).savedFile = none ∧
        Msg.errorOccurred e ∈ (create_tracking_map env addr).printed) := by
  constructor
  · intro hg
    simp [create_tracking_map, hg]
  · intro e hg
    simp [create_tracking_map, hg]

theorem C5_unresolved_location_equivalent_witness :
    ((create_tracking_map envGeoNone "Nowhere").savedFile = none ∧
      Msg.errorNotFound "Nowhere" ∈ (create_tracking_map envGeoNone "Nowhere").printed) ∧
    ((create_tracking_map envGeoRaise "Nowhere").savedFile = none ∧
      Msg.errorOccurred "boom" ∈ (create_tracking_map envGeoRaise "Nowhere").printed) :=
  ⟨(C5_unresolved_location_equivalent envGeoNone "Nowhere").1 rfl,
   (C5_unresolved_location_equivalent envGeoRaise "Nowhere").2 "boom" rfl⟩

/-- Claim C6: when the input string is blank after trimming whitespace,
the program prints only the informational message, never calls the
geocoder, and writes no output file. -/
theorem C6_blank_input_early_exit (env : Env) (s : String) (h : strip s = "") :
    (main_program env s).printed = [Msg.noLocation] ∧
    (main_program env s).geocodeCalled = false ∧
    (main_program env s).savedFile = none := by
  simp [main_program, h]

theorem C6_blank_input_early_exit_witness :
    strip "   " = "" ∧
    ((main_program envFound "   ").printed = [Msg.noLocation] ∧
      (main_program envFound "   ").geocodeCalled = false ∧
      (main_program envFound "   ").savedFile = none) :=
  ⟨by decide, C6_blank_input_early_exit envFound "   " (by decide)⟩

/-- Claim C7: whenever the geocoder resolves the location (and the run
reaches the generation step), the path generator is invoked exactly once,
with the geocoded coordinate as start and the fixed configuration
constants `num_points = 100` and `max_step = 0.0008`; the arguments do not
depend on the input string `addr`. -/
theorem C7_generator_constants (env : Env) (addr : String) (lat lon : ℝ)
    (hg : env.geocode = Except.ok (some (lat, lon)))
    (hm : env.mapNew = Except.ok ()) :
    (create_tracking_map env addr).generatorCalls
      = [((lat, lon), (100 : ℤ), (0.0008 : ℝ))] := by
  rcases hpl : env.polylineAdd with e1 | u1 <;>
  rcases hms : env.markerStartAdd with e2 | u2 <;>
  rcases hme : env.markerEndAdd with e3 | u3 <;>
  rcases hsv : env.saveMap with e4 | u4 <;>
  rcases hob : env.openBrowser with e5 | u5 <;>
    simp [create_tracking_map, hg, hm, hpl, hms, hme, hsv, hob]

theorem C7_generator_constants_witness :
    (create_tracking_map envFound "Eiffel Tower, Paris").generatorCalls
      = [(((48.8584 : ℝ), (2.2945 : ℝ)), (100 : ℤ), (0.0008 : ℝ))] :=
  C7_generator_constants envFound "Eiffel Tower, Paris" 48.8584 2.2945 rfl rfl

/-- Claim C9: when the run reaches the save step, the saved artifact holds
exactly two markers: the first at the generated path's first element
(`gps_path[0]`, popup "Start Point", green play icon) and the second at
its last element (`gps_path[-1]`, popup "End Point", red stop icon); the
two styles are distinct. -/
theorem C9_two_markers_first_last (env : Env) (addr : String) (lat lon : ℝ)
    (hg : env.geocode = Except.ok (some (lat, lon)))
    (hm : env.mapNew = Except.ok ()) (hpl : env.polylineAdd = Except.ok ())
    (hms : env.markerStartAdd = Except.ok ()) (hme : env.markerEndAdd = Except.ok ())
    (hsv : env.saveMap = Except.ok ()) :
    ∃ fm : FMap,
      (create_tracking_map env addr).savedFile = some ("gps_tracking_map.html", fm) ∧
      fm.markers =
        [{ location := (generate_random_path env.rands lat lon 100 0.0008).head!,
           popup := "Start Point", iconColor := "green", iconName := "play" },
         { location := (generate_random_path env.rands lat lon 100 0.0008).getLast!,
           popup := "End Point", iconColor := "red", iconName := "stop" }] ∧
      (∀ a b, fm.markers = [a, b] →
        a.iconColor ≠ b.iconColor ∧ a.iconName ≠ b.iconName) := by
  refine ⟨fullMap env.rands lat lon,
    create_tracking_map_savedFile_of_ok env addr lat lon hg hm hpl hms hme hsv,
    rfl, ?_⟩
  intro a b hab
  simp only [fullMap, List.cons.injEq, and_true] at hab
  obtain ⟨ha, hb⟩ := hab
  subst ha
  subst hb
  refine ⟨?_, ?_⟩
  · show ("green" : String) ≠ ("red" : String)
    decide
  · show ("play" : String) ≠ ("stop" : String)
    decide

theorem C9_two_markers_first_last_witness :
    ∃ fm : FMap,
      (create_tracking_map envFound "Eiffel Tower, Paris").savedFile
          = some ("gps_tracking_map.html", fm) ∧
      fm.markers =
        [{ location := (generate_random_path envFound.rands 48.8584 2.2945 100 0.0008).head!,
           popup := "Start Point", iconColor := "green", iconName := "play" },
         { location := (generate_random_path envFound.rands 48.8584 2.2945 100 0.0008).getLast!,
           popup := "End Point", iconColor := "red", iconName := "stop" }] ∧
      (∀ a b, fm.markers = [a, b] →
        a.iconColor ≠ b.iconColor ∧ a.iconName ≠ b.iconName) :=
  C9_two_markers_first_last envFound "Eiffel Tower, Paris" 48.8584 2.2945
    rfl rfl rfl rfl rfl rfl

end GPSTrack
